import Mathlib

/-!
Shallow embedding of the Caudalimetro flow-meter firmware sketches.

The repository holds Arduino sketches sharing one pattern: an asynchronous
pulse source increments a counter, a periodic aggregator drains the counter
once per window and converts it into a flow rate, a cumulative volume and a
classification band, and a foreground command loop mutates configuration.

Floating-point values of the sketches are modelled as rationals; machine
counters (`unsigned long`) as naturals, since no claim exercises wrap-around.
-/

namespace Caudalimetro

/-- Classification labels printed by the liquid sketch `calcularCaudal`
(src/unnamed/part_000 lines 151-175). -/
inductive Estado where
  | muyBajo
  | bajo
  | normal
  | alto
  | sobrecaudal
deriving DecidableEq

/-- C `float` division totalised over ℚ: `none` stands for the non-finite
IEEE-754 value (infinity or NaN) that C float division produces when the
divisor is zero. The calibration paths of the sketches perform this division
with no zero test, so a zero divisor reaches it. -/
def floatDiv (a b : ℚ) : Option ℚ :=
  if b = 0 then none else some (a / b)

namespace Liquido

/-- `const float FACTOR_K = 7.5;` — mL per pulse (part_000 line 33). -/
def FACTOR_K : ℚ := 75 / 10

/-- `const int INTERVALO_MEDICION = 1000;` — ms (part_000 line 35). -/
def INTERVALO_MEDICION : ℕ := 1000

/-- `caudalActual = (contadorPulsos * FACTOR_K * 60.0) / 1000.0;`
(part_000 line 113). The sketch's factor is the constant `FACTOR_K`; it is
taken here as the parameter `factorK` so the Unit Converter formula is
stated once, and part_000 facts instantiate `factorK := FACTOR_K`. -/
def caudal (contadorPulsos : ℕ) (factorK : ℚ) : ℚ :=
  (contadorPulsos * factorK * 60) / 1000

/-- The amount added to `volumenTotal` on a tick:
`volumenTotal += (contadorPulsos * FACTOR_K) / 1000.0;` (part_000 line 120). -/
def incrementoVolumen (contadorPulsos : ℕ) (factorK : ℚ) : ℚ :=
  (contadorPulsos * factorK) / 1000

/-- The if/else-if classification chain of `calcularCaudal`
(part_000 lines 151-175): `< 1.0` Muy bajo, `< 5.0` Bajo, `<= 15.0` Normal,
`<= 25.0` Alto, otherwise Sobrecaudal. -/
def clasificar (caudalActual : ℚ) : Estado :=
  if caudalActual < 1 then Estado.muyBajo
  else if caudalActual < 5 then Estado.bajo
  else if caudalActual ≤ 15 then Estado.normal
  else if caudalActual ≤ 25 then Estado.alto
  else Estado.sobrecaudal

/-- The mutable state of part_000 shared between the ISR, the timer tick and
the command loop: the pulse accumulator and the derived flow state. -/
structure FlowState where
  contadorPulsos : ℕ
  caudalActual : ℚ
  volumenTotal : ℚ
deriving DecidableEq

/-- `contarPulso()` ISR (part_000 line 79): `contadorPulsos++`. -/
def contarPulso (s : FlowState) : FlowState :=
  { s with contadorPulsos := s.contadorPulsos + 1 }

/-- `calcularCaudal()` timer tick (part_000 lines 100-182): computes the rate
from the accumulated pulses, accumulates volume, and resets only the pulse
counter (`contadorPulsos = 0;`, line 178). -/
def calcularCaudal (factorK : ℚ) (s : FlowState) : FlowState :=
  { contadorPulsos := 0
    caudalActual := caudal s.contadorPulsos factorK
    volumenTotal := s.volumenTotal + incrementoVolumen s.contadorPulsos factorK }

/-- One aggregation window: the ISR fires `p` times, then the timer tick
drains the accumulator. -/
def ventana (factorK : ℚ) (p : ℕ) (s : FlowState) : FlowState :=
  calcularCaudal factorK (contarPulso^[p] s)

/-- A run of consecutive aggregation windows whose pulse counts are `ps`. -/
def correr (factorK : ℚ) (s : FlowState) : List ℕ → FlowState
  | [] => s
  | p :: ps => correr factorK (ventana factorK p s) ps

/-- State effect of `procesarComandoSerial()` (part_000 lines 352-399): only
the volume-reset command mutates state (`volumenTotal = 0.0;`, line 359). The
s/h cases only print; the c case validates its input but `FACTOR_K` is a
compile-time constant and nothing is applied. -/
def procesarComandoSerial (comando : Char) (s : FlowState) : FlowState :=
  if comando = 'r' ∨ comando = 'R' then { s with volumenTotal := 0 } else s

/-- The range test of the c command (part_000 line 384):
`nuevoFactor > 0 && nuevoFactor < 100`. -/
def validaComandoC (nuevoFactor : ℚ) : Bool :=
  decide (0 < nuevoFactor) && decide (nuevoFactor < 100)

/-- The calibration factor in effect after the c command ran with input
`nuevoFactor` (part_000 lines 377-390): inside the range test the sketch only
prints the value it *would* use; `FACTOR_K` is `const` and never changes. -/
def factorTrasComandoC (nuevoFactor : ℚ) : ℚ :=
  FACTOR_K

/-- `calibrarSensor()` new factor (part_000 line 449):
`float nuevoFactorK = 1000.0 / pulsosContados;` — the 1000 mL reference is
hard-coded; there is no test for `pulsosContados == 0` anywhere in the
function, so zero pulses reach the float division. -/
def nuevoFactorKSensor (pulsosContados : ℕ) : Option ℚ :=
  floatDiv 1000 pulsosContados

end Liquido

namespace Aire

/-- `caudalAire = (pulsosAire * factorK * 60.0);` — L/min
(part_001 line 168, air sketch). -/
def caudalAire (pulsosAire : ℕ) (factorK : ℚ) : ℚ :=
  pulsosAire * factorK * 60

/-- The amount added to `volumenTotalAire` on a tick:
`volumenTotalAire += (pulsosAire * factorK) / 60.0;` (part_001 line 183):
the sketch divides the pulse count times the per-pulse factor by 60. -/
def incrementoVolumenAire (pulsosAire : ℕ) (factorK : ℚ) : ℚ :=
  (pulsosAire * factorK) / 60

/-- The factor in effect after the f command of `procesarComandoAire` ran
(part_001 lines 345-354): `factorK = Serial.parseFloat();` — the parsed value
is assigned directly, with no range or sign test. -/
def factorTrasComandoF (factorK entrada : ℚ) : ℚ :=
  entrada

/-- The r command of `procesarComandoAire` (part_001 lines 369-372):
`volumenTotalAire = 0;`. -/
def volumenTrasComandoR (volumenTotalAire : ℚ) : ℚ :=
  0

/-- `calibrarPorVolumen()` computed factor (part_001 line 446):
`float nuevoFactorK = volumenConocido / totalPulsos;` — no test for
`totalPulsos == 0`. -/
def nuevoFactorKVolumen (volumenConocido : ℚ) (totalPulsos : ℕ) : Option ℚ :=
  floatDiv volumenConocido totalPulsos

/-- Apply/discard step of `calibrarPorVolumen()` (part_001 lines 464-473):
`factorK = nuevoFactorK;` only when the answer read is 's' or 'S'; any other
answer leaves `factorK` untouched. -/
def aplicarPorVolumen (factorK nuevoFactorK : ℚ) (respuesta : Char) : ℚ :=
  if respuesta = 's' ∨ respuesta = 'S' then nuevoFactorK else factorK

/-- `calibrarPorVelocidad()` computed factor (part_001 line 501):
`float nuevoFactorK = (caudalTeoricoLmin * 10.0) / (totalPulsos * 60.0);` —
no test for `totalPulsos == 0`. -/
def nuevoFactorKVelocidad (caudalTeoricoLmin : ℚ) (totalPulsos : ℕ) : Option ℚ :=
  floatDiv (caudalTeoricoLmin * 10) (totalPulsos * 60)

/-- End of `calibrarPorVelocidad()` (part_001 lines 519-520):
`factorK = nuevoFactorK;` unconditionally — the velocity method has no
apply/discard prompt at all. -/
def aplicarPorVelocidad (factorK nuevoFactorK : ℚ) : ℚ :=
  nuevoFactorK

end Aire

namespace Ldr

/-- `const int umbralLuz = 500;` (part_001 line 7, LDR/laser sketch). -/
def umbralLuz : ℤ := 500

/-- The state of the LDR polling detector: the pulse counter and the
"beam currently interrupted" latch `hazInterrumpido`. -/
structure LdrState where
  contadorPulsos : ℕ
  hazInterrumpido : Bool
deriving DecidableEq

/-- One iteration of `loop()` pulse detection (part_001 lines 40-51):
`if (valorLDR < umbralLuz && !hazInterrumpido) { hazInterrumpido = true;
contadorPulsos++; } else if (valorLDR >= umbralLuz) { hazInterrumpido =
false; }` — the third possibility (reading below threshold while the latch
is already set) changes nothing. -/
def pasoLdr (s : LdrState) (valorLDR : ℤ) : LdrState :=
  if valorLDR < umbralLuz ∧ s.hazInterrumpido = false then
    { contadorPulsos := s.contadorPulsos + 1, hazInterrumpido := true }
  else if umbralLuz ≤ valorLDR then
    { s with hazInterrumpido := false }
  else s

end Ldr

/-- The spec's Unit Converter rate formula for the liquid sketch:
rate(p, k) = p × k × unitScale with unitScale = 60/1000 for L/min from a
mL-per-pulse factor. Stated from the spec's words, to be compared with the
source formula `Liquido.caudal`. -/
def specRateLiquido (p : ℕ) (k : ℚ) : ℚ :=
  p * k * (60 / 1000)

/-- The spec's Unit Converter rate formula for the air sketch:
rate(p, k) = p × k × unitScale with unitScale = 60 for L/min from an
L-per-pulse factor. Stated from the spec's words, to be compared with the
source formula `Aire.caudalAire`. -/
def specRateAire (p : ℕ) (k : ℚ) : ℚ :=
  p * k * 60

/-! Helper lemmas shared by the claim theorems. -/

/-- The ISR touches only the pulse counter: iterating `contarPulso` leaves
`volumenTotal` unchanged. -/
theorem contarPulso_iterate_volumen (p : ℕ) (s : Liquido.FlowState) :
    (Liquido.contarPulso^[p] s).volumenTotal = s.volumenTotal := by
  induction p generalizing s with
  | zero => rfl
  | succ n ih =>
    rw [Function.iterate_succ_apply]
    exact ih (Liquido.contarPulso s)

/-- A tick's volume increment is non-negative for a non-negative factor. -/
theorem incrementoVolumen_nonneg (p : ℕ) (k : ℚ) (hk : 0 ≤ k) :
    0 ≤ Liquido.incrementoVolumen p k := by
  unfold Liquido.incrementoVolumen
  positivity

/-- A single aggregation window with a non-negative factor does not decrease
the cumulative volume. -/
theorem ventana_volumen_mono (k : ℚ) (hk : 0 ≤ k) (p : ℕ) (s : Liquido.FlowState) :
    s.volumenTotal ≤ (Liquido.ventana k p s).volumenTotal := by
  unfold Liquido.ventana Liquido.calcularCaudal
  simp only
  rw [contarPulso_iterate_volumen]
  have h := incrementoVolumen_nonneg (Liquido.contarPulso^[p] s).contadorPulsos k hk
  linarith

/-- Any run of aggregation windows with a non-negative factor does not
decrease the cumulative volume. -/
theorem correr_volumen_mono (k : ℚ) (hk : 0 ≤ k) (s : Liquido.FlowState)
    (ps : List ℕ) : s.volumenTotal ≤ (Liquido.correr k s ps).volumenTotal := by
  induction ps generalizing s with
  | nil => exact le_refl _
  | cons p ps ih =>
    calc s.volumenTotal ≤ (Liquido.ventana k p s).volumenTotal :=
          ventana_volumen_mono k hk p s
      _ ≤ (Liquido.correr k (Liquido.ventana k p s) ps).volumenTotal :=
          ih (Liquido.ventana k p s)

/-! Claim theorems. -/

/-- C1: counterexample — at the claim's own input (10 pulses drained in a
1000 ms window, factor 7.5 mL/pulse) the computed rate is 4.50 L/min, and the
classification chain of part_000 puts 4.5 in the "Bajo" band (4.5 < 5.0 at
line 154), not in "Normal" as the claim states. -/
theorem C1_counterexample :
    Liquido.caudal 10 Liquido.FACTOR_K = 9 / 2 ∧
    Liquido.clasificar (Liquido.caudal 10 Liquido.FACTOR_K) = Estado.bajo ∧
    Estado.bajo ≠ Estado.normal := by
  refine ⟨by norm_num [Liquido.caudal, Liquido.FACTOR_K], ?_, by decide⟩
  have h : Liquido.caudal 10 Liquido.FACTOR_K = 9 / 2 := by
    norm_num [Liquido.caudal, Liquido.FACTOR_K]
  rw [h]
  norm_num [Liquido.clasificar]

/-- C1 (amended): with a 1000 ms window and factor 7.5 mL/pulse, a tick that
drains 10 pulses produces a rate of 4.50 L/min, increments the cumulative
volume by 0.075 L, and classifies the result into the "Bajo" band. -/
theorem C1_amended_endToEnd :
    Liquido.caudal 10 Liquido.FACTOR_K = 9 / 2 ∧
    Liquido.incrementoVolumen 10 Liquido.FACTOR_K = 3 / 40 ∧
    Liquido.clasificar (Liquido.caudal 10 Liquido.FACTOR_K) = Estado.bajo := by
  have h : Liquido.caudal 10 Liquido.FACTOR_K = 9 / 2 := by
    norm_num [Liquido.caudal, Liquido.FACTOR_K]
  refine ⟨h, by norm_num [Liquido.incrementoVolumen, Liquido.FACTOR_K], ?_⟩
  rw [h]
  norm_num [Liquido.clasificar]

/-- C2: for every pulse count p and positive factor k, the liquid sketch's
rate equals p × k × (60/1000) L/min and the air sketch's rate equals
p × k × 60 L/min, matching the spec formula rate(p, k) = p × k × unitScale;
and the rate for p = 0 is 0 for every k. -/
theorem C2_rate_formula :
    (∀ (p : ℕ) (k : ℚ), 0 < k → Liquido.caudal p k = specRateLiquido p k) ∧
    (∀ (p : ℕ) (k : ℚ), 0 < k → Aire.caudalAire p k = specRateAire p k) ∧
    (∀ k : ℚ, Liquido.caudal 0 k = 0 ∧ Aire.caudalAire 0 k = 0) := by
  refine ⟨?_, ?_, ?_⟩
  · intro p k _
    unfold Liquido.caudal specRateLiquido
    ring
  · intro p k _
    unfold Aire.caudalAire specRateAire
    ring
  · intro k
    constructor
    · unfold Liquido.caudal
      norm_num
    · unfold Aire.caudalAire
      norm_num

/-- C2 witness: the liquid formula at p = 10, k = 7.5. -/
theorem C2_rate_formula_witness :
    (0 : ℚ) < 75 / 10 ∧
    Liquido.caudal 10 (75 / 10) = specRateLiquido 10 (75 / 10) :=
  ⟨by norm_num, C2_rate_formula.1 10 (75 / 10) (by norm_num)⟩

/-- C3: evaluation at the failing input — the liquid sketch increments the
volume by pulses × factorK / 1000 litres as the claim states, but the air
sketch (part_001 line 183) divides by 60: a tick draining 60 pulses at
factorK = 0.5 L/pulse adds 0.5 L to `volumenTotalAire`, not the
60 × 0.5 = 30 L that "pulses × factorK litres" requires. -/
theorem C3_volume_increment_eval :
    (∀ (p : ℕ) (k : ℚ), Liquido.incrementoVolumen p k = p * k / 1000) ∧
    Aire.incrementoVolumenAire 60 (1 / 2) = 1 / 2 ∧
    (1 / 2 : ℚ) ≠ 60 * (1 / 2) := by
  refine ⟨?_, ?_, by norm_num⟩
  · intro p k
    unfold Liquido.incrementoVolumen
    ring
  · unfold Aire.incrementoVolumenAire
    norm_num

/-- C4: evaluation at the failing input — with zero pulses observed, every
calibration-factor computation in the sketches performs a float division by
zero (a non-finite IEEE result, modelled as `none`): `calibrarSensor`
(part_000 line 449), `calibrarPorVolumen` (part_001 line 446) and
`calibrarPorVelocidad` (part_001 line 501) all lack the "no pulses observed"
failure branch the claim requires. -/
theorem C4_calibration_divzero_eval :
    Liquido.nuevoFactorKSensor 0 = none ∧
    Aire.nuevoFactorKVolumen 100 0 = none ∧
    Aire.nuevoFactorKVelocidad 100 0 = none := by
  refine ⟨?_, ?_, ?_⟩ <;>
    simp [Liquido.nuevoFactorKSensor, Aire.nuevoFactorKVolumen,
      Aire.nuevoFactorKVelocidad, floatDiv]

/-- C5: counterexample — the air sketch's f command applies −5 L/pulse, a
value outside every positive bounded range, instead of rejecting it: the
factor in effect afterwards is −5, not the retained prior value 0.5. -/
theorem C5_counterexample :
    ¬ (0 : ℚ) < -5 ∧
    Aire.factorTrasComandoF (1 / 2) (-5) = -5 ∧
    Aire.factorTrasComandoF (1 / 2) (-5) ≠ 1 / 2 := by
  refine ⟨by norm_num, rfl, ?_⟩
  unfold Aire.factorTrasComandoF
  norm_num

/-- C5 (amended): the liquid sketch checks the supplied value against
0 < v < 100 but its factor is a compile-time constant, so even a validated
in-range value leaves the factor at FACTOR_K; the air sketch performs no
validation at all and every supplied value, in range or not, immediately
becomes the CalibrationFactor. -/
theorem C5_amended_setFactor :
    (∀ v : ℚ, Liquido.validaComandoC v = true →
      Liquido.factorTrasComandoC v = Liquido.FACTOR_K) ∧
    (∀ f v : ℚ, Aire.factorTrasComandoF f v = v) := by
  exact ⟨fun v _ => rfl, fun f v => rfl⟩

/-- C5 witness: v = 50 passes the liquid range test yet the factor stays at
FACTOR_K. -/
theorem C5_amended_setFactor_witness :
    Liquido.validaComandoC 50 = true ∧
    Liquido.factorTrasComandoC 50 = Liquido.FACTOR_K := by
  have hv : Liquido.validaComandoC 50 = true := by
    unfold Liquido.validaComandoC
    norm_num
  exact ⟨hv, C5_amended_setFactor.1 50 hv⟩

/-- C6: counterexample — `calibrarPorVelocidad` overwrites the factor with
the computed value unconditionally: there is no confirm/discard step on that
path, yet the prior factor 0.5 is replaced by 3. -/
theorem C6_counterexample :
    Aire.aplicarPorVelocidad (1 / 2) 3 = 3 ∧
    Aire.aplicarPorVelocidad (1 / 2) 3 ≠ 1 / 2 := by
  refine ⟨rfl, ?_⟩
  unfold Aire.aplicarPorVelocidad
  norm_num

/-- C6 (amended): the volume-method session overwrites the factor exactly
when the operator confirms with 's' or 'S' and retains it on any other
answer, but the velocity-method session overwrites the factor
unconditionally, with no confirm/discard step. -/
theorem C6_amended_applyDiscard :
    (∀ f n : ℚ, Aire.aplicarPorVolumen f n 's' = n ∧
      Aire.aplicarPorVolumen f n 'S' = n) ∧
    (∀ (f n : ℚ) (r : Char), r ≠ 's' → r ≠ 'S' →
      Aire.aplicarPorVolumen f n r = f) ∧
    (∀ f n : ℚ, Aire.aplicarPorVelocidad f n = n) := by
  refine ⟨fun f n => ⟨by simp [Aire.aplicarPorVolumen], by simp [Aire.aplicarPorVolumen]⟩,
    ?_, fun f n => rfl⟩
  intro f n r h1 h2
  simp [Aire.aplicarPorVolumen, h1, h2]

/-- C6 witness: answering 'n' discards — the prior factor 0.5 is retained. -/
theorem C6_amended_applyDiscard_witness :
    ('n' ≠ 's') ∧ ('n' ≠ 'S') ∧
    Aire.aplicarPorVolumen (1 / 2) 3 'n' = 1 / 2 :=
  ⟨by decide, by decide,
    C6_amended_applyDiscard.2.1 (1 / 2) 3 'n' (by decide) (by decide)⟩

/-- C7: the classification chain partitions the non-negative rate domain —
every non-negative rate is in exactly one band, with the boundaries of the
source's comparison operators: Muy bajo on rate < 1, Bajo on 1 ≤ rate < 5,
Normal on 5 ≤ rate ≤ 15 (lower bound inclusive via the strict `< 5` above
it, upper bound inclusive via `<= 15`), Alto on 15 < rate ≤ 25 and
Sobrecaudal on rate > 25; in particular a rate of exactly 5 classifies as
Normal, not Bajo. -/
theorem C7_bands_partition :
    (∀ q : ℚ, 0 ≤ q →
      ((Liquido.clasificar q = Estado.muyBajo ↔ q < 1) ∧
       (Liquido.clasificar q = Estado.bajo ↔ 1 ≤ q ∧ q < 5) ∧
       (Liquido.clasificar q = Estado.normal ↔ 5 ≤ q ∧ q ≤ 15) ∧
       (Liquido.clasificar q = Estado.alto ↔ 15 < q ∧ q ≤ 25) ∧
       (Liquido.clasificar q = Estado.sobrecaudal ↔ 25 < q))) ∧
    Liquido.clasificar 5 = Estado.normal := by
  constructor
  · intro q _
    unfold Liquido.clasificar
    split_ifs with h1 h2 h3 h4 <;>
      refine ⟨?_, ?_, ?_, ?_, ?_⟩ <;>
      constructor <;>
      intro h <;>
      first
        | rfl
        | (exact h.elim)
        | linarith
        | (exact Estado.noConfusion h)
        | (constructor <;> linarith)
  · norm_num [Liquido.clasificar]

/-- C7 witness: the Normal band membership at the boundary rate 5. -/
theorem C7_bands_partition_witness :
    Liquido.clasificar 5 = Estado.normal ↔ 5 ≤ (5 : ℚ) ∧ (5 : ℚ) ≤ 15 :=
  (C7_bands_partition.1 5 (by norm_num)).2.2.1

/-- C8: with a positive factor, cumulative volume never decreases across any
sequence of aggregation windows with non-negative pulse counts (liquid run,
and each air tick); each liquid tick resets exactly the pulse counter to
zero; the command interface zeroes the volume only on the explicit reset
command 'r'/'R', which sets it to 0. -/
theorem C8_volume_monotone :
    (∀ k : ℚ, 0 < k → ∀ (s : Liquido.FlowState) (ps : List ℕ),
      s.volumenTotal ≤ (Liquido.correr k s ps).volumenTotal) ∧
    (∀ (k : ℚ) (s : Liquido.FlowState),
      (Liquido.calcularCaudal k s).contadorPulsos = 0 ∧
      s.volumenTotal ≤ (Liquido.calcularCaudal k s).volumenTotal ∨ ¬ 0 ≤ k) ∧
    (∀ k : ℚ, 0 < k → ∀ (p : ℕ) (v : ℚ),
      v ≤ v + Aire.incrementoVolumenAire p k) ∧
    (∀ (c : Char) (s : Liquido.FlowState),
      (Liquido.procesarComandoSerial c s).volumenTotal ≠ s.volumenTotal →
        c = 'r' ∨ c = 'R') ∧
    (∀ s : Liquido.FlowState,
      (Liquido.procesarComandoSerial 'r' s).volumenTotal = 0) := by
  refine ⟨?_, ?_, ?_, ?_, ?_⟩
  · intro k hk s ps
    exact correr_volumen_mono k (le_of_lt hk) s ps
  · intro k s
    by_cases hk : 0 ≤ k
    · left
      refine ⟨rfl, ?_⟩
      have h := incrementoVolumen_nonneg s.contadorPulsos k hk
      unfold Liquido.calcularCaudal
      simp only
      linarith
    · right
      exact hk
  · intro k hk p v
    have h : 0 ≤ Aire.incrementoVolumenAire p k := by
      unfold Aire.incrementoVolumenAire
      positivity
    linarith
  · intro c s h
    unfold Liquido.procesarComandoSerial at h
    by_contra hc
    push_neg at hc
    simp [hc.1, hc.2] at h
  · intro s
    simp [Liquido.procesarComandoSerial]

/-- C8 witness: a concrete run from volume 0 with factor 7.5 and windows
[10, 0, 3]. -/
theorem C8_volume_monotone_witness :
    (0 : ℚ) < 75 / 10 ∧
    (⟨0, 0, 0⟩ : Liquido.FlowState).volumenTotal ≤
      (Liquido.correr (75 / 10) ⟨0, 0, 0⟩ [10, 0, 3]).volumenTotal :=
  ⟨by norm_num,
    C8_volume_monotone.1 (75 / 10) (by norm_num) ⟨0, 0, 0⟩ [10, 0, 3]⟩

/-- C9: the volume-method calibration derives the new factor as
reference / deltaPulses — `calibrarSensor` with its hard-coded 1000 mL
reference yields exactly 1000/133 mL/pulse for 133 pulses, and
`calibrarPorVolumen` yields reference / deltaPulses for every nonzero
delta. -/
theorem C9_calibration_formula :
    Liquido.nuevoFactorKSensor 133 = some (1000 / 133) ∧
    (∀ (v : ℚ) (p : ℕ), p ≠ 0 →
      Aire.nuevoFactorKVolumen v p = some (v / p)) := by
  constructor
  · simp [Liquido.nuevoFactorKSensor, floatDiv]
  · intro v p hp
    simp [Aire.nuevoFactorKVolumen, floatDiv, hp]

/-- C9 witness: 1000 L over 133 pulses in the air volume calibration. -/
theorem C9_calibration_formula_witness :
    (133 : ℕ) ≠ 0 ∧
    Aire.nuevoFactorKVolumen 1000 133 = some (1000 / 133) := by
  refine ⟨by norm_num, ?_⟩
  have h := C9_calibration_formula.2 1000 133 (by norm_num)
  rw [h]
  norm_num

/-- C10: the LDR polling detector counts each occlusion exactly once — a
sample below the threshold with the latch clear increments the counter by
one and sets the latch; while the latch is set and samples stay below the
threshold the state is unchanged (no further increment), even across any
whole sequence of such samples; a sample at or above the threshold never
increments and clears the latch; and the latch clears only on a sample at or
above the threshold. -/
theorem C10_latch_once_per_occlusion :
    (∀ (s : Ldr.LdrState) (v : ℤ), v < Ldr.umbralLuz →
      s.hazInterrumpido = false →
      (Ldr.pasoLdr s v).contadorPulsos = s.contadorPulsos + 1 ∧
      (Ldr.pasoLdr s v).hazInterrumpido = true) ∧
    (∀ (s : Ldr.LdrState) (v : ℤ), s.hazInterrumpido = true →
      v < Ldr.umbralLuz → Ldr.pasoLdr s v = s) ∧
    (∀ (s : Ldr.LdrState) (v : ℤ), Ldr.umbralLuz ≤ v →
      (Ldr.pasoLdr s v).contadorPulsos = s.contadorPulsos ∧
      (Ldr.pasoLdr s v).hazInterrumpido = false) ∧
    (∀ (s : Ldr.LdrState) (v : ℤ), s.hazInterrumpido = true →
      (Ldr.pasoLdr s v).hazInterrumpido = false → Ldr.umbralLuz ≤ v) ∧
    (∀ s : Ldr.LdrState, s.hazInterrumpido = true →
      ∀ vs : List ℤ, (∀ v ∈ vs, v < Ldr.umbralLuz) →
        vs.foldl Ldr.pasoLdr s = s) := by
  have hblocked : ∀ (s : Ldr.LdrState) (v : ℤ), s.hazInterrumpido = true →
      v < Ldr.umbralLuz → Ldr.pasoLdr s v = s := by
    intro s v hs hv
    unfold Ldr.pasoLdr
    rw [hs]
    simp only [Bool.true_eq_false, and_false, if_false]
    rw [if_neg (by linarith)]
  refine ⟨?_, hblocked, ?_, ?_, ?_⟩
  · intro s v hv hs
    unfold Ldr.pasoLdr
    rw [if_pos ⟨hv, hs⟩]
    exact ⟨rfl, rfl⟩
  · intro s v hv
    unfold Ldr.pasoLdr
    rw [if_neg (by intro h; linarith [h.1]), if_pos hv]
    exact ⟨rfl, rfl⟩
  · intro s v hs hafter
    by_contra hlt
    push_neg at hlt
    rw [hblocked s v hs hlt] at hafter
    rw [hs] at hafter
    exact Bool.true_eq_false.mp hafter
  · intro s hs vs hvs
    induction vs with
    | nil => rfl
    | cons v vs ih =>
      rw [List.foldl_cons, hblocked s v hs (hvs v (List.mem_cons_self v vs))]
      exact ih fun w hw => hvs w (List.mem_cons_of_mem v hw)

/-- C10 witness: from a clear latch, a dark sample (400 < 500) increments the
counter and sets the latch. -/
theorem C10_latch_once_per_occlusion_witness :
    (400 : ℤ) < Ldr.umbralLuz ∧
    (⟨0, false⟩ : Ldr.LdrState).hazInterrumpido = false ∧
    (Ldr.pasoLdr ⟨0, false⟩ 400).contadorPulsos = 0 + 1 ∧
    (Ldr.pasoLdr ⟨0, false⟩ 400).hazInterrumpido = true := by
  have h400 : (400 : ℤ) < Ldr.umbralLuz := by norm_num [Ldr.umbralLuz]
  have h := C10_latch_once_per_occlusion.1 ⟨0, false⟩ 400 h400 rfl
  exact ⟨h400, rfl, h.1, h.2⟩

end Caudalimetro
